import Mathlib

/-!
Verification of the voice interaction loop of the chatbot UI
(source: src/src/App.tsx).

The stateful browser code is shallowly embedded: the mutable refs and
React state variables become fields of explicit state records, each event
handler becomes a pure function from the state (plus the data the browser
would hand it) to a result record describing the new state and the
observable effects (messages appended, timers scheduled, network requests
sent, playback started).  External platform primitives (base64/UTF-8
decoding, the media element, timers) are modelled as parameters or events.
-/

namespace ChatbotUI

/-- Sender of a conversation message (the `sender` field of `Message`). -/
inductive Sender
  | user
  | bot
deriving DecidableEq, Repr

/-- A conversation message, as in the `Message` interface of App.tsx. -/
structure Message where
  sender : Sender
  text : String
deriving DecidableEq, Repr

/-! ### Playback stage (the Promise built around `finishPlayback`, App.tsx 307-350)

State of one call of the playback stage: the `hasResolved` flag, counters of
how many times `resolve` was called, how many times the object-URL was
revoked, and how many times the promise would have been rejected (the code
never rejects), plus the `audioPlaybackInProgress` React flag. -/

structure PlaybackState where
  hasResolved : Bool
  resolveCount : Nat
  rejectCount : Nat
  revokeCount : Nat
  audioPlaybackInProgress : Bool
deriving DecidableEq, Repr

/-- The `finishPlayback` closure: if not yet resolved, mark resolved, clear the
playback-in-progress flag, resolve the promise once and revoke the object-URL
once; otherwise do nothing. -/
def finishPlayback (s : PlaybackState) : PlaybackState :=
  if s.hasResolved then s
  else
    { s with
      hasResolved := true
      audioPlaybackInProgress := false
      resolveCount := s.resolveCount + 1
      revokeCount := s.revokeCount + 1 }

/-- The completion signals wired to `finishPlayback`.  Times in the
`timeupdate` event are in milliseconds (the source works in float seconds;
its guard `currentTime >= duration - 0.1` becomes `dur ≤ ct + 100`). -/
inductive PlaybackEvent
  | ended
  | timeupdate (currentTimeMs durationMs : Nat)
  | metadataTimer
  | ceilingTimer
  | errorEvent
  | playRejected
deriving DecidableEq, Repr

/-- Dispatch of one completion signal, following the five handlers of the
source: `onended`, `ontimeupdate` (guarded), the metadata-based timer, the
absolute 15 s timer, `onerror`, and the `play().catch` handler. -/
def playbackStep (s : PlaybackState) (e : PlaybackEvent) : PlaybackState :=
  match e with
  | .ended => finishPlayback s
  | .timeupdate ct dur =>
      if 0 < ct ∧ 0 < dur ∧ dur ≤ ct + 100 then finishPlayback s else s
  | .metadataTimer => finishPlayback s
  | .ceilingTimer => finishPlayback s
  | .errorEvent => finishPlayback s
  | .playRejected => finishPlayback s

/-- Run a sequence of completion signals. -/
def runPlayback (s : PlaybackState) (es : List PlaybackEvent) : PlaybackState :=
  es.foldl playbackStep s

/-- State at the start of a playback-stage call: promise pending, nothing
resolved or revoked, playback flagged as in progress. -/
def initPlayback : PlaybackState :=
  { hasResolved := false, resolveCount := 0, rejectCount := 0, revokeCount := 0,
    audioPlaybackInProgress := true }

/-- Invariant of the playback state: the resolve and revoke counters agree
with the `hasResolved` flag and nothing is ever rejected. -/
def playbackInv (s : PlaybackState) : Prop :=
  s.resolveCount = (if s.hasResolved then 1 else 0) ∧
  s.revokeCount = (if s.hasResolved then 1 else 0) ∧
  s.rejectCount = 0

/-! ### Silence detection (`checkSilence`, App.tsx 396-433) -/

/-- State of the MediaRecorder as far as `checkSilence` observes it. -/
inductive RecorderState
  | recording
  | inactive
deriving DecidableEq, Repr

/-- The peak-deviation amplitude metric of one analyser read:
`Math.max(...dataArray.map(v => Math.abs(v - 128)))`.  Samples are bytes;
`max (v - 128) (128 - v)` is `|v - 128|` in truncated Nat arithmetic. -/
def amplitude (samples : List Nat) : Nat :=
  (samples.map (fun v => max (v - 128) (128 - v))).foldl max 0

/-- State carried between animation-frame ticks of the silence detector. -/
structure SilenceState where
  silenceStart : Option Nat
  recorder : RecorderState
  stopCount : Nat
  frameScheduled : Bool
  audioContextClosed : Bool
deriving DecidableEq, Repr

/-- One animation-frame tick: the current time and the analyser samples. -/
structure Tick where
  now : Nat
  samples : List Nat
deriving DecidableEq, Repr

def silenceThreshold : Nat := 5

def silenceDurationMs : Nat := 2000

/-- One execution of the `checkSilence` callback.  `voiceLoop` is
`voiceLoopRef.current`.  Returning with `frameScheduled := false` models the
paths that do not call `requestAnimationFrame` again. -/
def checkSilence (voiceLoop : Bool) (t : Tick) (s : SilenceState) : SilenceState :=
  if ¬ voiceLoop ∨ s.recorder ≠ .recording then
    { s with frameScheduled := false }
  else
    let maxAmplitude := amplitude t.samples
    if maxAmplitude < silenceThreshold then
      match s.silenceStart with
      | none => { s with silenceStart := some t.now, frameScheduled := true }
      | some t0 =>
        if silenceDurationMs ≤ t.now - t0 then
          if s.recorder = .recording then
            { s with
              recorder := .inactive
              stopCount := s.stopCount + 1
              frameScheduled := false
              audioContextClosed := true }
          else
            { s with frameScheduled := true }
        else
          { s with frameScheduled := true }
    else
      { s with silenceStart := none, frameScheduled := true }

/-- A tick only runs the callback when a frame was actually scheduled. -/
def silenceTick (voiceLoop : Bool) (s : SilenceState) (t : Tick) : SilenceState :=
  if s.frameScheduled then checkSilence voiceLoop t s else s

/-- Run a sequence of animation-frame ticks. -/
def runSilence (voiceLoop : Bool) (s : SilenceState) (ts : List Tick) : SilenceState :=
  ts.foldl (silenceTick voiceLoop) s

/-- Detector state right after `mediaRecorder.start()` and the initial
`checkSilence()` call is scheduled: no silence marker, recorder recording. -/
def initSilence : SilenceState :=
  { silenceStart := none, recorder := .recording, stopCount := 0,
    frameScheduled := true, audioContextClosed := false }

/-! ### Orchestrator state and loop entry (`startVoiceLoop`, App.tsx 161-185) -/

/-- The voice-loop state visible to `startVoiceLoop` and the recorder
handlers: the `voiceLoopRef` flag, the `isVoiceMode`, `errorCount`,
`audioPlaybackInProgress`, `isListening`, `isProcessing` React state, and
the conversation log. -/
structure LoopState where
  voiceLoopActive : Bool
  isVoiceMode : Bool
  errorCount : Nat
  audioPlaybackInProgress : Bool
  isListening : Bool
  isProcessing : Bool
  messages : List Message
deriving DecidableEq, Repr

/-- What the entry of `startVoiceLoop` decides before any device work. -/
inductive EntryAction
  | inactiveReturn
  | playbackDelayed
  | abortVoiceMode
  | acquireMicrophone
deriving DecidableEq, Repr

/-- The terminal message posted when too many consecutive errors occur. -/
def tooManyErrorsMsg : Message :=
  { sender := .bot, text := "יותר מדי שגיאות ברצף. מצב קולי מושבת." }

/-- The guard sequence at the top of `startVoiceLoop`: inactive return,
playback-in-progress return, too-many-errors abort (post message, leave voice
mode), otherwise proceed to acquire the microphone. -/
def startVoiceLoopEntry (s : LoopState) : LoopState × EntryAction :=
  if ¬ s.voiceLoopActive then (s, .inactiveReturn)
  else if s.audioPlaybackInProgress then (s, .playbackDelayed)
  else if 3 < s.errorCount then
    ({ s with messages := s.messages ++ [tooManyErrorsMsg], isVoiceMode := false },
     .abortVoiceMode)
  else
    ({ s with isListening := true, isProcessing := false }, .acquireMicrophone)

/-- One classified failure: `setErrorCount(prev => prev + 1)`. -/
def classifiedFailure (c : Nat) : Nat := c + 1

/-! ### The recorder `onstop` handler (App.tsx 205-391) -/

/-- Body of a `/transcribe` JSON response: the optional `transcription`
field. -/
structure TranscribeData where
  transcription : Option String
deriving DecidableEq, Repr

/-- Observables of a `/speak` response: the optional
`X-Response-Text-B64` header (the audio body is opaque here). -/
structure SpeakData where
  responseTextB64 : Option String
deriving DecidableEq, Repr

/-- JavaScript `String.prototype.trim`: drop leading and trailing
whitespace.  Written with structural recursion over the character list so
that concrete instances compute. -/
def trimString (s : String) : String :=
  ⟨((s.data.dropWhile Char.isWhitespace).reverse.dropWhile
      Char.isWhitespace).reverse⟩

/-- `data.transcription ? data.transcription.trim() : ""`. -/
def transcribedText (d : TranscribeData) : String :=
  match d.transcription with
  | some t => trimString t
  | none => ""

/-- Placeholder used when decoding the response-text header throws. -/
def decodeFailurePlaceholder : String := "(תוכן התשובה לא זמין)"

/-- Fallback bot text used when the decoded response text is empty/absent. -/
def voicePlayedFallback : String := "(🔊 קול הופעל)"

/-- Apology posted by the catch block of the `onstop` handler. -/
def apologyMsg : Message :=
  { sender := .bot, text := "שגיאה בזיהוי קול או השמעה. מנסה שוב..." }

/-- Apology posted by the microphone-error catch of `startVoiceLoop`. -/
def micErrorMsg : Message :=
  { sender := .bot, text := "שגיאה בגישה למיקרופון. מנסה שוב..." }

/-- `Math.min(errorCount * 1000, 5000)` as computed by both catch blocks.
Note the argument is the value of `errorCount` the handler captured, i.e.
the count *before* the `setErrorCount(prev => prev + 1)` of the same block
is applied (React state setters do not mutate the captured const). -/
def backoffMs (errorCount : Nat) : Nat := min (errorCount * 1000) 5000

/-- Result of one run of the recorder `onstop` handler (or of the
microphone-error catch): new values of the React state, the messages
appended, the delay of the `setTimeout(startVoiceLoop, _)` scheduled if any,
which network requests were sent, and whether audio playback was started. -/
structure StopResult where
  errorCount : Nat
  isListening : Bool
  isProcessing : Bool
  audioPlaybackInProgress : Bool
  appended : List Message
  scheduledDelay : Option Nat
  sentTranscribe : Bool
  sentSpeak : Bool
  playbackStarted : Bool
deriving DecidableEq, Repr

/-- The catch block of the `onstop` handler (App.tsx 372-390): increment the
error count, post the apology, and — the loop still being active — clear the
processing/playback flags and reschedule after `min(errorCount*1000, 5000)`
where `errorCount` is the captured pre-increment value.  `already` holds
messages the try block appended before failing. -/
def onstopCatch (s : LoopState) (already : List Message) (sentT sentS : Bool) :
    StopResult :=
  { errorCount := s.errorCount + 1,
    isListening := false,
    isProcessing := if s.voiceLoopActive then false else true,
    audioPlaybackInProgress :=
      if s.voiceLoopActive then false else s.audioPlaybackInProgress,
    appended := already ++ [apologyMsg],
    scheduledDelay :=
      if s.voiceLoopActive then some (backoffMs s.errorCount) else none,
    sentTranscribe := sentT, sentSpeak := sentS, playbackStarted := false }

/-- The recorder `onstop` handler.  `decode` models the external
base64 + UTF-8 decoding of the header (`atob` plus `TextDecoder`): `none`
means it threw.  `chunks` are the sizes of the recorded blobs; `tr` and `sp`
are the outcomes of the two fetches, `Except.error status` standing for a
non-ok response (or network failure). -/
def handleRecordingStop (decode : String → Option String) (s : LoopState)
    (chunks : List Nat) (tr : Except Nat TranscribeData)
    (sp : Except Nat SpeakData) : StopResult :=
  if ¬ s.voiceLoopActive then
    { errorCount := s.errorCount, isListening := s.isListening,
      isProcessing := s.isProcessing,
      audioPlaybackInProgress := s.audioPlaybackInProgress, appended := [],
      scheduledDelay := none, sentTranscribe := false, sentSpeak := false,
      playbackStarted := false }
  else if chunks.isEmpty then
    { errorCount := s.errorCount + 1, isListening := false, isProcessing := true,
      audioPlaybackInProgress := s.audioPlaybackInProgress, appended := [],
      scheduledDelay := some 1000, sentTranscribe := false, sentSpeak := false,
      playbackStarted := false }
  else
    match tr with
    | .error _ => onstopCatch s [] true false
    | .ok d =>
      let userText := transcribedText d
      if userText = "" then
        { errorCount := s.errorCount, isListening := false, isProcessing := true,
          audioPlaybackInProgress := s.audioPlaybackInProgress, appended := [],
          scheduledDelay := some 500, sentTranscribe := true, sentSpeak := false,
          playbackStarted := false }
      else
        match sp with
        | .error _ =>
            onstopCatch s [{ sender := .user, text := userText }] true true
        | .ok v =>
          let responseText :=
            match v.responseTextB64 with
            | none => ""
            | some h =>
              match decode h with
              | some t => t
              | none => decodeFailurePlaceholder
          let botText := if responseText = "" then voicePlayedFallback else responseText
          { errorCount := 0, isListening := false, isProcessing := true,
            audioPlaybackInProgress := true,
            appended := [{ sender := .user, text := userText },
                         { sender := .bot, text := botText }],
            scheduledDelay := none, sentTranscribe := true, sentSpeak := true,
            playbackStarted := true }

/-- The microphone-error catch of `startVoiceLoop` (App.tsx 434-451). -/
def handleMicError (s : LoopState) : StopResult :=
  { errorCount := s.errorCount + 1, isListening := false, isProcessing := false,
    audioPlaybackInProgress :=
      if s.voiceLoopActive then false else s.audioPlaybackInProgress,
    appended := [micErrorMsg],
    scheduledDelay :=
      if s.voiceLoopActive then some (backoffMs s.errorCount) else none,
    sentTranscribe := false, sentSpeak := false, playbackStarted := false }

/-- `toggleVoiceMode` (App.tsx 454-467) together with the `useEffect` on
`isVoiceMode` (App.tsx 75-86) which resets the error count on every toggle. -/
def toggleVoiceMode (s : LoopState) : LoopState :=
  if ¬ s.isVoiceMode then
    { s with
      isVoiceMode := true
      voiceLoopActive := true
      errorCount := 0
      audioPlaybackInProgress := false }
  else
    { s with
      isVoiceMode := false
      voiceLoopActive := false
      errorCount := 0
      isListening := false
      isProcessing := false
      audioPlaybackInProgress := false }

/-! ### Resource cleanup (`cleanupVoiceResources`, App.tsx 88-111) -/

/-- The resources `cleanupVoiceResources` touches: the recorder state, the
ref to the device stream together with the liveness of its tracks (tracks
exist in the world even after the ref is dropped), the audio element ref and
whether audio is playing, and the three React flags. -/
structure CleanupState where
  recorder : RecorderState
  streamHeld : Bool
  tracks : List Bool
  audioHeld : Bool
  audioPlaying : Bool
  isListening : Bool
  isProcessing : Bool
  audioPlaybackInProgress : Bool
deriving DecidableEq, Repr

/-- `cleanupVoiceResources`: stop the recorder if recording, stop every track
of the held stream and drop the ref, pause and detach any held audio, clear
the three flags. -/
def cleanupVoiceResources (s : CleanupState) : CleanupState :=
  let s1 := if s.recorder = .recording then { s with recorder := .inactive } else s
  let s2 :=
    if s1.streamHeld then
      { s1 with tracks := s1.tracks.map (fun _ => false), streamHeld := false }
    else s1
  let s3 :=
    if s2.audioHeld then
      { s2 with audioPlaying := false, audioHeld := false }
    else s2
  { s3 with
    isListening := false
    isProcessing := false
    audioPlaybackInProgress := false }

/-- Ownership invariant maintained by the program: when no stream ref is
held the device tracks are already stopped, and when no audio element is
held nothing is playing. -/
def ownsResources (s : CleanupState) : Prop :=
  (s.streamHeld = false → ∀ b ∈ s.tracks, b = false) ∧
  (s.audioHeld = false → s.audioPlaying = false)

/-! ### Concrete inputs used to instantiate the theorems -/

/-- A decode oracle that always fails. -/
def decFail : String → Option String := fun _ => none

/-- A decode oracle that always succeeds. -/
def decOk : String → Option String := fun _ => some "הכל טוב"

/-- A loop state in voice mode with no errors yet. -/
def s0 : LoopState :=
  { voiceLoopActive := true, isVoiceMode := true, errorCount := 0,
    audioPlaybackInProgress := false, isListening := true, isProcessing := true,
    messages := [] }

/-- A cleanup state mid-Playing: recorder stopped, stream held with a live
track, audio playing. -/
def c0 : CleanupState :=
  { recorder := .recording, streamHeld := true, tracks := [true, true],
    audioHeld := true, audioPlaying := true, isListening := true,
    isProcessing := false, audioPlaybackInProgress := true }

/-! ## Theorems -/

/-! ### Playback stage lemmas -/

theorem finishPlayback_hasResolved (s : PlaybackState) :
    (finishPlayback s).hasResolved = true := by
  unfold finishPlayback
  split
  · assumption
  · rfl

theorem playbackStep_of_resolved (s : PlaybackState) (e : PlaybackEvent)
    (h : s.hasResolved = true) : playbackStep s e = s := by
  have hf : finishPlayback s = s := by simp [finishPlayback, h]
  cases e <;> simp [playbackStep, hf]

theorem runPlayback_of_resolved (es : List PlaybackEvent) (s : PlaybackState)
    (h : s.hasResolved = true) : runPlayback s es = s := by
  induction es with
  | nil => rfl
  | cons e rest ih =>
    show runPlayback (playbackStep s e) rest = s
    rw [playbackStep_of_resolved s e h, ih]

theorem playbackStep_inv (s : PlaybackState) (e : PlaybackEvent)
    (h : playbackInv s) : playbackInv (playbackStep s e) := by
  obtain ⟨h1, h2, h3⟩ := h
  have hfin : playbackInv (finishPlayback s) := by
    unfold finishPlayback
    split
    · exact ⟨h1, h2, h3⟩
    · next hr =>
      simp only [Bool.not_eq_true] at hr
      refine ⟨?_, ?_, h3⟩ <;> simp [h1, h2, hr]
  cases e <;> simp only [playbackStep]
  case timeupdate ct dur =>
    split
    · exact hfin
    · exact ⟨h1, h2, h3⟩
  all_goals exact hfin

theorem runPlayback_inv (es : List PlaybackEvent) (s : PlaybackState)
    (h : playbackInv s) : playbackInv (runPlayback s es) := by
  induction es generalizing s with
  | nil => exact h
  | cons e rest ih =>
    show playbackInv (runPlayback (playbackStep s e) rest)
    exact ih _ (playbackStep_inv s e h)

theorem runPlayback_resolved_of_mem (es : List PlaybackEvent) (s : PlaybackState)
    (h : PlaybackEvent.ceilingTimer ∈ es) :
    (runPlayback s es).hasResolved = true := by
  induction es generalizing s with
  | nil => cases h
  | cons e rest ih =>
    show (runPlayback (playbackStep s e) rest).hasResolved = true
    rcases List.mem_cons.mp h with he | hm
    · subst he
      have hstep : playbackStep s PlaybackEvent.ceilingTimer = finishPlayback s := rfl
      rw [hstep, runPlayback_of_resolved rest _ (finishPlayback_hasResolved s)]
      exact finishPlayback_hasResolved s
    · exact ih _ hm

/-- Claim C1: for every call of the playback stage, whatever nonempty
combination of the five completion signals fires (the absolute ceiling
timer is always armed, so it is always among the fired signals), the
playback future resolves exactly once, the transient audio object-URL is
revoked exactly once, and the future is never rejected — in particular the
playback-error signal resolves rather than rejects. -/
theorem playback_resolves_exactly_once (es : List PlaybackEvent)
    (h : PlaybackEvent.ceilingTimer ∈ es) :
    (runPlayback initPlayback es).resolveCount = 1 ∧
    (runPlayback initPlayback es).revokeCount = 1 ∧
    (runPlayback initPlayback es).rejectCount = 0 ∧
    (runPlayback initPlayback es).hasResolved = true := by
  have hres := runPlayback_resolved_of_mem es initPlayback h
  have hinv := runPlayback_inv es initPlayback (by exact ⟨rfl, rfl, rfl⟩)
  obtain ⟨h1, h2, h3⟩ := hinv
  rw [hres] at h1 h2
  exact ⟨h1, h2, h3, hres⟩

/-- Witness for C1 at a concrete signal sequence: the error signal fires
first, then the ceiling timer, then a late native ended event. -/
theorem playback_resolves_exactly_once_witness :
    (runPlayback initPlayback
      [PlaybackEvent.errorEvent, PlaybackEvent.ceilingTimer,
       PlaybackEvent.ended]).resolveCount = 1 ∧
    (runPlayback initPlayback
      [PlaybackEvent.errorEvent, PlaybackEvent.ceilingTimer,
       PlaybackEvent.ended]).revokeCount = 1 ∧
    (runPlayback initPlayback
      [PlaybackEvent.errorEvent, PlaybackEvent.ceilingTimer,
       PlaybackEvent.ended]).rejectCount = 0 ∧
    (runPlayback initPlayback
      [PlaybackEvent.errorEvent, PlaybackEvent.ceilingTimer,
       PlaybackEvent.ended]).hasResolved = true :=
  playback_resolves_exactly_once _ (by decide)

/-! ### Silence detector lemmas -/

theorem runSilence_unscheduled (vl : Bool) (ts : List Tick) (s : SilenceState)
    (h : s.frameScheduled = false) : runSilence vl s ts = s := by
  induction ts with
  | nil => rfl
  | cons t rest ih =>
    show runSilence vl (silenceTick vl s t) rest = s
    rw [silenceTick, if_neg (by simp [h]), ih]

theorem checkSilence_quiet_pending (t : Tick) (s : SilenceState) (t0 : Nat)
    (hss : s.silenceStart = some t0)
    (hrec : s.recorder = RecorderState.recording)
    (hamp : amplitude t.samples < silenceThreshold)
    (htr : ¬ silenceDurationMs ≤ t.now - t0) :
    checkSilence true t s = { s with frameScheduled := true } := by
  simp [checkSilence, hss, hrec, hamp, htr]

theorem checkSilence_quiet_fire (t : Tick) (s : SilenceState) (t0 : Nat)
    (hss : s.silenceStart = some t0)
    (hrec : s.recorder = RecorderState.recording)
    (hamp : amplitude t.samples < silenceThreshold)
    (htr : silenceDurationMs ≤ t.now - t0) :
    checkSilence true t s =
      { s with
        recorder := RecorderState.inactive
        stopCount := s.stopCount + 1
        frameScheduled := false
        audioContextClosed := true } := by
  simp [checkSilence, hss, hrec, hamp, htr]

theorem checkSilence_reset (t : Tick) (s : SilenceState)
    (hrec : s.recorder = RecorderState.recording)
    (hamp : silenceThreshold ≤ amplitude t.samples) :
    (checkSilence true t s).silenceStart = none := by
  simp [checkSilence, hrec, Nat.not_lt.mpr hamp]

theorem runSilence_quiet_run (ts : List Tick) (t0 : Nat) (s : SilenceState)
    (hss : s.silenceStart = some t0)
    (hrec : s.recorder = RecorderState.recording)
    (hsched : s.frameScheduled = true)
    (hq : ∀ t ∈ ts, amplitude t.samples < silenceThreshold)
    (hlong : ∃ t ∈ ts, t0 + silenceDurationMs ≤ t.now) :
    (runSilence true s ts).stopCount = s.stopCount + 1 ∧
    (runSilence true s ts).recorder = RecorderState.inactive ∧
    (runSilence true s ts).frameScheduled = false := by
  induction ts generalizing s with
  | nil => simp at hlong
  | cons t rest ih =>
    have hstep : runSilence true s (t :: rest) =
        runSilence true (checkSilence true t s) rest := by
      show runSilence true (silenceTick true s t) rest = _
      rw [silenceTick, if_pos hsched]
    by_cases htr : silenceDurationMs ≤ t.now - t0
    · have hfire := checkSilence_quiet_fire t s t0 hss hrec
        (hq t (List.mem_cons_self t rest)) htr
      rw [hstep, hfire, runSilence_unscheduled true rest _ (by rfl)]
      exact ⟨rfl, rfl, rfl⟩
    · have hpend := checkSilence_quiet_pending t s t0 hss hrec
        (hq t (List.mem_cons_self t rest)) htr
      have heta : { s with frameScheduled := true } = s := by
        cases s
        simp_all
      rw [hstep, hpend, heta]
      refine ih s hss hrec hsched (fun u hu => hq u (List.mem_cons_of_mem t hu)) ?_
      obtain ⟨u, hu, hul⟩ := hlong
      rcases List.mem_cons.mp hu with rfl | hur
      · exact absurd (by omega) htr
      · exact ⟨u, hur, hul⟩

/-- Claim C2: while capture is active, the amplitude metric is the maximum
absolute deviation of the samples from 128; a run of ticks all below the
threshold 5 spanning at least 2000 ms from its first tick makes the detector
call the recorder stop exactly once — and never again on any later ticks —
terminating the sampling loop, while any tick at or above the threshold
resets the silence-start marker to none. -/
theorem silence_stops_exactly_once (t1 : Tick) (rest : List Tick)
    (hq : ∀ t ∈ t1 :: rest, amplitude t.samples < silenceThreshold)
    (hlong : ∃ t ∈ rest, t1.now + silenceDurationMs ≤ t.now) :
    (runSilence true initSilence (t1 :: rest)).stopCount = 1 ∧
    (runSilence true initSilence (t1 :: rest)).recorder = RecorderState.inactive ∧
    (runSilence true initSilence (t1 :: rest)).frameScheduled = false ∧
    (∀ more : List Tick,
      runSilence true (runSilence true initSilence (t1 :: rest)) more =
        runSilence true initSilence (t1 :: rest)) ∧
    (∀ (t : Tick) (s : SilenceState), s.recorder = RecorderState.recording →
      silenceThreshold ≤ amplitude t.samples →
      (checkSilence true t s).silenceStart = none) := by
  have hstep1 : runSilence true initSilence (t1 :: rest) =
      runSilence true (checkSilence true t1 initSilence) rest := by
    show runSilence true (silenceTick true initSilence t1) rest = _
    rw [silenceTick, if_pos (by rfl)]
  have hinit : checkSilence true t1 initSilence =
      { initSilence with silenceStart := some t1.now, frameScheduled := true } := by
    simp [checkSilence, initSilence, hq t1 (List.mem_cons_self t1 rest)]
  have hrun := runSilence_quiet_run rest t1.now
      { initSilence with silenceStart := some t1.now, frameScheduled := true }
      rfl rfl rfl (fun u hu => hq u (List.mem_cons_of_mem t1 hu)) hlong
  rw [hstep1, hinit]
  obtain ⟨h1, h2, h3⟩ := hrun
  refine ⟨h1, h2, h3, ?_, ?_⟩
  · intro more
    exact runSilence_unscheduled true more _ h3
  · intro t s hrec hamp
    exact checkSilence_reset t s hrec hamp

/-- Witness for C2: a quiet tick at t=0 followed by a quiet tick at t=2000
stops the recorder exactly once. -/
theorem silence_stops_exactly_once_witness :
    (runSilence true initSilence
      [{ now := 0, samples := [128] }, { now := 2000, samples := [130] }]).stopCount = 1 ∧
    (runSilence true initSilence
      [{ now := 0, samples := [128] }, { now := 2000, samples := [130] }]).recorder =
        RecorderState.inactive ∧
    (runSilence true initSilence
      [{ now := 0, samples := [128] }, { now := 2000, samples := [130] }]).frameScheduled
        = false ∧
    (∀ more : List Tick,
      runSilence true (runSilence true initSilence
        [{ now := 0, samples := [128] }, { now := 2000, samples := [130] }]) more =
        runSilence true initSilence
          [{ now := 0, samples := [128] }, { now := 2000, samples := [130] }]) ∧
    (∀ (t : Tick) (s : SilenceState), s.recorder = RecorderState.recording →
      silenceThreshold ≤ amplitude t.samples →
      (checkSilence true t s).silenceStart = none) :=
  silence_stops_exactly_once { now := 0, samples := [128] }
    [{ now := 2000, samples := [130] }] (by decide)
    ⟨{ now := 2000, samples := [130] }, by decide⟩

/-! ### Loop entry, backoff and transcription-cycle theorems -/

theorem classifiedFailure_iterate (n : Nat) : (classifiedFailure^[n]) 0 = n := by
  induction n with
  | zero => rfl
  | succ k ih =>
    rw [Function.iterate_succ_apply', ih]
    rfl

/-- Claim C3: entering a new voice-loop iteration with more than 3
consecutive errors deactivates voice mode, appends the final explanatory
bot message, and returns without reaching the microphone-acquisition step;
after n ≥ 4 consecutive classified failures starting from 0 the error count
is n, so the next iteration attempt aborts without acquiring the device. -/
theorem loop_entry_aborts_after_errors (s : LoopState) (n : Nat)
    (h1 : s.voiceLoopActive = true) (h2 : s.audioPlaybackInProgress = false)
    (h3 : 3 < s.errorCount) (hn : 4 ≤ n) :
    (startVoiceLoopEntry s).2 = EntryAction.abortVoiceMode ∧
    (startVoiceLoopEntry s).1.isVoiceMode = false ∧
    (startVoiceLoopEntry s).1.messages = s.messages ++ [tooManyErrorsMsg] ∧
    (startVoiceLoopEntry s).2 ≠ EntryAction.acquireMicrophone ∧
    (classifiedFailure^[n]) 0 = n ∧
    (startVoiceLoopEntry { s with errorCount := (classifiedFailure^[n]) 0 }).2 =
      EntryAction.abortVoiceMode := by
  have habort : startVoiceLoopEntry s =
      ({ s with messages := s.messages ++ [tooManyErrorsMsg], isVoiceMode := false },
       EntryAction.abortVoiceMode) := by
    simp [startVoiceLoopEntry, h1, h2, h3]
  have hiter := classifiedFailure_iterate n
  refine ⟨by rw [habort], by rw [habort], by rw [habort], by rw [habort]; simp,
    hiter, ?_⟩
  rw [hiter]
  have h4 : 3 < n := by omega
  simp [startVoiceLoopEntry, h1, h2, h4]

/-- Witness for C3: a session with 4 accumulated errors aborts on entry. -/
theorem loop_entry_aborts_after_errors_witness :
    (startVoiceLoopEntry { s0 with errorCount := 4 }).2 =
      EntryAction.abortVoiceMode ∧
    (startVoiceLoopEntry { s0 with errorCount := 4 }).1.isVoiceMode = false ∧
    (startVoiceLoopEntry { s0 with errorCount := 4 }).1.messages =
      ({ s0 with errorCount := 4 } : LoopState).messages ++ [tooManyErrorsMsg] ∧
    (startVoiceLoopEntry { s0 with errorCount := 4 }).2 ≠
      EntryAction.acquireMicrophone ∧
    (classifiedFailure^[4]) 0 = 4 ∧
    (startVoiceLoopEntry
      { ({ s0 with errorCount := 4 } : LoopState) with
        errorCount := (classifiedFailure^[4]) 0 }).2 = EntryAction.abortVoiceMode :=
  loop_entry_aborts_after_errors { s0 with errorCount := 4 } 4 rfl rfl
    (by decide) (by decide)

/-- C4 counterexample: at the first classified failure of a fresh session
(error count 0, transcription request fails), the code schedules the retry
after `min(0 * 1000, 5000) = 0` ms — the claim requires 1000 ms.  The
handler reads the pre-increment count because the state setter does not
change the captured value. -/
theorem backoff_first_failure_is_zero :
    (handleRecordingStop decFail s0 [1] (Except.error 500)
      (Except.ok { responseTextB64 := none })).errorCount = 1 ∧
    (handleRecordingStop decFail s0 [1] (Except.error 500)
      (Except.ok { responseTextB64 := none })).scheduledDelay = some 0 ∧
    (some 0 : Option Nat) ≠ some 1000 :=
  ⟨rfl, rfl, by decide⟩

/-- Claim C4 as amended: a classified recoverable failure increments the
error count, posts the apology message, and reschedules after
`min(preCount * 1000, 5000)` ms where `preCount` is the consecutive-error
count *before* this failure's increment, so the delays for the 1st through
6th consecutive failures are 0, 1000, 2000, 3000, 4000, 5000 ms. -/
theorem backoff_uses_preincrement_count (decode : String → Option String)
    (s : LoopState) (st : Nat) (sp : Except Nat SpeakData) (c : Nat)
    (cs : List Nat) (h1 : s.voiceLoopActive = true) :
    (handleRecordingStop decode s (c :: cs) (Except.error st) sp).errorCount =
      s.errorCount + 1 ∧
    (handleRecordingStop decode s (c :: cs) (Except.error st) sp).appended =
      [apologyMsg] ∧
    (handleRecordingStop decode s (c :: cs) (Except.error st) sp).scheduledDelay =
      some (backoffMs s.errorCount) ∧
    (handleMicError s).errorCount = s.errorCount + 1 ∧
    (handleMicError s).appended = [micErrorMsg] ∧
    (handleMicError s).scheduledDelay = some (backoffMs s.errorCount) ∧
    (List.range 6).map backoffMs = [0, 1000, 2000, 3000, 4000, 5000] := by
  refine ⟨?_, ?_, ?_, ?_, ?_, ?_, by decide⟩ <;>
    simp [handleRecordingStop, onstopCatch, handleMicError, h1]

/-- Witness for C4 (amended) at the second consecutive failure: delay is
`min(1 * 1000, 5000) = 1000` ms. -/
theorem backoff_uses_preincrement_count_witness :
    (handleRecordingStop decFail { s0 with errorCount := 1 } [1]
      (Except.error 500) (Except.ok { responseTextB64 := none })).errorCount =
      ({ s0 with errorCount := 1 } : LoopState).errorCount + 1 ∧
    (handleRecordingStop decFail { s0 with errorCount := 1 } [1]
      (Except.error 500) (Except.ok { responseTextB64 := none })).appended =
      [apologyMsg] ∧
    (handleRecordingStop decFail { s0 with errorCount := 1 } [1]
      (Except.error 500) (Except.ok { responseTextB64 := none })).scheduledDelay =
      some (backoffMs ({ s0 with errorCount := 1 } : LoopState).errorCount) ∧
    (handleMicError { s0 with errorCount := 1 }).errorCount =
      ({ s0 with errorCount := 1 } : LoopState).errorCount + 1 ∧
    (handleMicError { s0 with errorCount := 1 }).appended = [micErrorMsg] ∧
    (handleMicError { s0 with errorCount := 1 }).scheduledDelay =
      some (backoffMs ({ s0 with errorCount := 1 } : LoopState).errorCount) ∧
    (List.range 6).map backoffMs = [0, 1000, 2000, 3000, 4000, 5000] :=
  backoff_uses_preincrement_count decFail { s0 with errorCount := 1 } 500
    (Except.ok { responseTextB64 := none }) 1 [] rfl

/-- Claim C5: an empty-after-trimming transcription appends no message,
leaves the error count unchanged, schedules the restart after 500 ms and
never reaches the response request — it is not treated as a failure. -/
theorem empty_transcription_not_failure (decode : String → Option String)
    (s : LoopState) (c : Nat) (cs : List Nat) (d : TranscribeData)
    (sp : Except Nat SpeakData) (h1 : s.voiceLoopActive = true)
    (hd : transcribedText d = "") :
    (handleRecordingStop decode s (c :: cs) (Except.ok d) sp).appended = [] ∧
    (handleRecordingStop decode s (c :: cs) (Except.ok d) sp).errorCount =
      s.errorCount ∧
    (handleRecordingStop decode s (c :: cs) (Except.ok d) sp).scheduledDelay =
      some 500 ∧
    (handleRecordingStop decode s (c :: cs) (Except.ok d) sp).sentSpeak = false ∧
    (handleRecordingStop decode s (c :: cs) (Except.ok d) sp).sentTranscribe =
      true := by
  refine ⟨?_, ?_, ?_, ?_, ?_⟩ <;> simp [handleRecordingStop, h1, hd]

/-- Witness for C5: a transcription of whitespace only. -/
theorem empty_transcription_not_failure_witness :
    (handleRecordingStop decOk s0 [1] (Except.ok { transcription := some "  " })
      (Except.ok { responseTextB64 := none })).appended = [] ∧
    (handleRecordingStop decOk s0 [1] (Except.ok { transcription := some "  " })
      (Except.ok { responseTextB64 := none })).errorCount = s0.errorCount ∧
    (handleRecordingStop decOk s0 [1] (Except.ok { transcription := some "  " })
      (Except.ok { responseTextB64 := none })).scheduledDelay = some 500 ∧
    (handleRecordingStop decOk s0 [1] (Except.ok { transcription := some "  " })
      (Except.ok { responseTextB64 := none })).sentSpeak = false ∧
    (handleRecordingStop decOk s0 [1] (Except.ok { transcription := some "  " })
      (Except.ok { responseTextB64 := none })).sentTranscribe = true :=
  empty_transcription_not_failure decOk s0 1 []
    { transcription := some "  " } (Except.ok { responseTextB64 := none })
    rfl (by decide)

/-! ### Cleanup, error-counter and response-decoding theorems -/

/-- Claim C6: running the cleanup sequence from any phase leaves no live
device-stream track, no playing audio, the stream and audio refs dropped,
the recorder stopped and all React flags cleared — and the sequence is
idempotent, so a redundant second invocation changes nothing. -/
theorem cleanup_quiesces_and_idempotent (s : CleanupState)
    (h : ownsResources s) :
    (∀ b ∈ (cleanupVoiceResources s).tracks, b = false) ∧
    (cleanupVoiceResources s).audioPlaying = false ∧
    (cleanupVoiceResources s).streamHeld = false ∧
    (cleanupVoiceResources s).audioHeld = false ∧
    (cleanupVoiceResources s).recorder = RecorderState.inactive ∧
    (cleanupVoiceResources s).isListening = false ∧
    (cleanupVoiceResources s).isProcessing = false ∧
    (cleanupVoiceResources s).audioPlaybackInProgress = false ∧
    cleanupVoiceResources (cleanupVoiceResources s) = cleanupVoiceResources s := by
  obtain ⟨hs, ha⟩ := h
  cases s with
  | mk rec sh tk ah ap il ip apip =>
    cases rec <;> cases sh <;> cases ah <;>
      simp_all [cleanupVoiceResources, List.map_map, Function.comp]

/-- Witness for C6 from a state mid-Playing with every resource held. -/
theorem cleanup_quiesces_and_idempotent_witness :
    (∀ b ∈ (cleanupVoiceResources c0).tracks, b = false) ∧
    (cleanupVoiceResources c0).audioPlaying = false ∧
    (cleanupVoiceResources c0).streamHeld = false ∧
    (cleanupVoiceResources c0).audioHeld = false ∧
    (cleanupVoiceResources c0).recorder = RecorderState.inactive ∧
    (cleanupVoiceResources c0).isListening = false ∧
    (cleanupVoiceResources c0).isProcessing = false ∧
    (cleanupVoiceResources c0).audioPlaybackInProgress = false ∧
    cleanupVoiceResources (cleanupVoiceResources c0) = cleanupVoiceResources c0 :=
  cleanup_quiesces_and_idempotent c0 (by simp [ownsResources, c0])

/-- Claim C7: the consecutive-error count resets to 0 on a fully successful
cycle, increments by exactly 1 on each classified failure (no recorded
chunks, failed transcription request, failed response request, microphone
acquisition failure), is unchanged by an empty transcription, resets to 0
on a voice-mode toggle, and is unchanged by the loop-entry guards. -/
theorem error_counter_transitions (decode : String → Option String)
    (s : LoopState) (h1 : s.voiceLoopActive = true) :
    (∀ (c : Nat) (cs : List Nat) (d : TranscribeData) (v : SpeakData),
      transcribedText d ≠ "" →
      (handleRecordingStop decode s (c :: cs) (Except.ok d)
        (Except.ok v)).errorCount = 0) ∧
    (∀ (tr : Except Nat TranscribeData) (sp : Except Nat SpeakData),
      (handleRecordingStop decode s [] tr sp).errorCount = s.errorCount + 1) ∧
    (∀ (c : Nat) (cs : List Nat) (st : Nat) (sp : Except Nat SpeakData),
      (handleRecordingStop decode s (c :: cs) (Except.error st) sp).errorCount =
        s.errorCount + 1) ∧
    (∀ (c : Nat) (cs : List Nat) (d : TranscribeData) (st : Nat),
      transcribedText d ≠ "" →
      (handleRecordingStop decode s (c :: cs) (Except.ok d)
        (Except.error st)).errorCount = s.errorCount + 1) ∧
    (∀ (c : Nat) (cs : List Nat) (d : TranscribeData) (sp : Except Nat SpeakData),
      transcribedText d = "" →
      (handleRecordingStop decode s (c :: cs) (Except.ok d) sp).errorCount =
        s.errorCount) ∧
    (handleMicError s).errorCount = s.errorCount + 1 ∧
    (toggleVoiceMode s).errorCount = 0 ∧
    (startVoiceLoopEntry s).1.errorCount = s.errorCount := by
  refine ⟨?_, ?_, ?_, ?_, ?_, ?_, ?_, ?_⟩
  · intro c cs d v hd
    simp [handleRecordingStop, h1, hd]
  · intro tr sp
    simp [handleRecordingStop, h1]
  · intro c cs st sp
    simp [handleRecordingStop, onstopCatch, h1]
  · intro c cs d st hd
    simp [handleRecordingStop, onstopCatch, h1, hd]
  · intro c cs d sp hd
    simp [handleRecordingStop, h1, hd]
  · simp [handleMicError]
  · unfold toggleVoiceMode
    split <;> rfl
  · unfold startVoiceLoopEntry
    split
    · rfl
    split
    · rfl
    split <;> rfl

/-- Witness for C7: a fully successful cycle resets the counter to 0. -/
theorem error_counter_transitions_witness :
    (handleRecordingStop decOk { s0 with errorCount := 2 } [1]
      (Except.ok { transcription := some "שלום" })
      (Except.ok { responseTextB64 := none })).errorCount = 0 :=
  (error_counter_transitions decOk { s0 with errorCount := 2 } rfl).1 1 []
    { transcription := some "שלום" } { responseTextB64 := none } (by decide)

/-- Claim C8: when the display-text header is present but fails to decode,
the cycle still appends a bot message carrying the fixed placeholder, still
starts playback of the returned audio, and the error counter is exactly
what it is on a successful decode (the cycle does not fail). -/
theorem decode_failure_degrades_to_placeholder
    (decode : String → Option String) (s : LoopState) (c : Nat)
    (cs : List Nat) (d : TranscribeData) (hdr : String)
    (h1 : s.voiceLoopActive = true) (hd : transcribedText d ≠ "")
    (hdec : decode hdr = none) :
    (handleRecordingStop decode s (c :: cs) (Except.ok d)
      (Except.ok { responseTextB64 := some hdr })).appended =
      [{ sender := .user, text := transcribedText d },
       { sender := .bot, text := decodeFailurePlaceholder }] ∧
    (handleRecordingStop decode s (c :: cs) (Except.ok d)
      (Except.ok { responseTextB64 := some hdr })).playbackStarted = true ∧
    (handleRecordingStop decode s (c :: cs) (Except.ok d)
      (Except.ok { responseTextB64 := some hdr })).errorCount = 0 ∧
    (∀ dec2 : String → Option String,
      (handleRecordingStop dec2 s (c :: cs) (Except.ok d)
        (Except.ok { responseTextB64 := some hdr })).errorCount =
      (handleRecordingStop decode s (c :: cs) (Except.ok d)
        (Except.ok { responseTextB64 := some hdr })).errorCount) := by
  have hplaceholder : decodeFailurePlaceholder ≠ "" := by decide
  refine ⟨?_, ?_, ?_, ?_⟩
  · simp [handleRecordingStop, h1, hd, hdec, hplaceholder]
  · simp [handleRecordingStop, h1, hd, hdec, hplaceholder]
  · simp [handleRecordingStop, h1, hd, hdec, hplaceholder]
  · intro dec2
    simp [handleRecordingStop, h1, hd]

/-- Witness for C8 with a concrete always-failing decoder. -/
theorem decode_failure_degrades_to_placeholder_witness :
    (handleRecordingStop decFail s0 [1]
      (Except.ok { transcription := some "שלום" })
      (Except.ok { responseTextB64 := some "%%%" })).appended =
      [{ sender := .user,
         text := transcribedText { transcription := some "שלום" } },
       { sender := .bot, text := decodeFailurePlaceholder }] ∧
    (handleRecordingStop decFail s0 [1]
      (Except.ok { transcription := some "שלום" })
      (Except.ok { responseTextB64 := some "%%%" })).playbackStarted = true ∧
    (handleRecordingStop decFail s0 [1]
      (Except.ok { transcription := some "שלום" })
      (Except.ok { responseTextB64 := some "%%%" })).errorCount = 0 ∧
    (∀ dec2 : String → Option String,
      (handleRecordingStop dec2 s0 [1]
        (Except.ok { transcription := some "שלום" })
        (Except.ok { responseTextB64 := some "%%%" })).errorCount =
      (handleRecordingStop decFail s0 [1]
        (Except.ok { transcription := some "שלום" })
        (Except.ok { responseTextB64 := some "%%%" })).errorCount) :=
  decode_failure_degrades_to_placeholder decFail s0 1 []
    { transcription := some "שלום" } "%%%" rfl (by decide) rfl

/-- Claim C9: a recording that stops with zero captured chunks is treated
as a failure: the counter increments, the retry is scheduled after a fixed
1000 ms (not the backoff formula applied to the new count), and no network
request is sent and no message appended. -/
theorem empty_chunks_fixed_delay (decode : String → Option String)
    (s : LoopState) (tr : Except Nat TranscribeData)
    (sp : Except Nat SpeakData) (h1 : s.voiceLoopActive = true) :
    (handleRecordingStop decode s [] tr sp).errorCount = s.errorCount + 1 ∧
    (handleRecordingStop decode s [] tr sp).scheduledDelay = some 1000 ∧
    (handleRecordingStop decode s [] tr sp).sentTranscribe = false ∧
    (handleRecordingStop decode s [] tr sp).sentSpeak = false ∧
    (handleRecordingStop decode s [] tr sp).appended = [] := by
  refine ⟨?_, ?_, ?_, ?_, ?_⟩ <;> simp [handleRecordingStop, h1]

/-- Witness for C9. -/
theorem empty_chunks_fixed_delay_witness :
    (handleRecordingStop decOk s0 [] (Except.error 500)
      (Except.ok { responseTextB64 := none })).errorCount = s0.errorCount + 1 ∧
    (handleRecordingStop decOk s0 [] (Except.error 500)
      (Except.ok { responseTextB64 := none })).scheduledDelay = some 1000 ∧
    (handleRecordingStop decOk s0 [] (Except.error 500)
      (Except.ok { responseTextB64 := none })).sentTranscribe = false ∧
    (handleRecordingStop decOk s0 [] (Except.error 500)
      (Except.ok { responseTextB64 := none })).sentSpeak = false ∧
    (handleRecordingStop decOk s0 [] (Except.error 500)
      (Except.ok { responseTextB64 := none })).appended = [] :=
  empty_chunks_fixed_delay decOk s0 (Except.error 500)
    (Except.ok { responseTextB64 := none }) rfl

/-- Claim C10: when the response carries no display-text header at all, the
appended bot message carries the distinct fixed fallback string (not the
decode-failure placeholder) and playback starts normally. -/
theorem absent_header_uses_fallback (decode : String → Option String)
    (s : LoopState) (c : Nat) (cs : List Nat) (d : TranscribeData)
    (h1 : s.voiceLoopActive = true) (hd : transcribedText d ≠ "") :
    (handleRecordingStop decode s (c :: cs) (Except.ok d)
      (Except.ok { responseTextB64 := none })).appended =
      [{ sender := .user, text := transcribedText d },
       { sender := .bot, text := voicePlayedFallback }] ∧
    (handleRecordingStop decode s (c :: cs) (Except.ok d)
      (Except.ok { responseTextB64 := none })).playbackStarted = true ∧
    voicePlayedFallback ≠ decodeFailurePlaceholder := by
  refine ⟨?_, ?_, by decide⟩ <;> simp [handleRecordingStop, h1, hd]

/-- Witness for C10. -/
theorem absent_header_uses_fallback_witness :
    (handleRecordingStop decOk s0 [1]
      (Except.ok { transcription := some "שלום" })
      (Except.ok { responseTextB64 := none })).appended =
      [{ sender := .user,
         text := transcribedText { transcription := some "שלום" } },
       { sender := .bot, text := voicePlayedFallback }] ∧
    (handleRecordingStop decOk s0 [1]
      (Except.ok { transcription := some "שלום" })
      (Except.ok { responseTextB64 := none })).playbackStarted = true ∧
    voicePlayedFallback ≠ decodeFailurePlaceholder :=
  absent_header_uses_fallback decOk s0 1 []
    { transcription := some "שלום" } rfl (by decide)

end ChatbotUI
